import Mathlib

/-!
Verification development for an API-gateway request pipeline.

The embedding models, from `src/gateway.py`:
  * `CircuitBreaker` (`record_success`, `record_failure`, `is_open`),
  * the per-client sliding-log rate limiter (`is_rate_limited`),
  * request/response transformation (`_transform_request`, `_transform_response`),
  * the orchestration (`handle_service_request`, `process_request`).

Python dictionaries are modelled as association lists with
update-first-or-append insertion (matching CPython's insertion-order
semantics); JSON payloads are a small inductive `JVal`; timestamps and
HTTP status codes are integers; the mocked downstream handler outcome
(which the source draws from `random`) is a parameter; the log sink is
a list of records accumulated by the pipeline.
-/

namespace Gateway

/-- JSON-like payload values (Python dicts / lists / scalars). -/
inductive JVal where
  | null : JVal
  | str (s : String) : JVal
  | num (n : Int) : JVal
  | bool (b : Bool) : JVal
  | arr (xs : List JVal) : JVal
  | obj (fields : List (String × JVal)) : JVal

/-- A Python dict with string keys, as an ordered association list. -/
abbrev JDict := List (String × JVal)

/-- HTTP-style headers: a Python dict of strings. -/
abbrev Headers := List (String × String)

/-- Python `d.get(k)`: value of the first entry with key `k`. -/
def alookup {α : Type} : List (String × α) → String → Option α
  | [], _ => none
  | (k', v') :: rest, k => if k' = k then some v' else alookup rest k

/-- Python `k in d`. -/
def acontains {α : Type} (d : List (String × α)) (k : String) : Bool :=
  (alookup d k).isSome

/-- Python `d[k] = v`: update the first entry with key `k` in place, else append
(CPython dict assignment keeps the position of an existing key and appends
a new one). -/
def aset {α : Type} : List (String × α) → String → α → List (String × α)
  | [], k, v => [(k, v)]
  | (k', v') :: rest, k, v =>
    if k' = k then (k, v) :: rest else (k', v') :: aset rest k v

/-- Python `del d[k]`. -/
def aremove {α : Type} (d : List (String × α)) (k : String) : List (String × α) :=
  d.filter (fun p => p.1 ≠ k)

/-- Circuit-breaker states: the Python strings "CLOSED" / "OPEN" / "HALF-OPEN". -/
inductive CBState where
  | CLOSED : CBState
  | OPEN : CBState
  | HALF_OPEN : CBState
deriving DecidableEq, Repr

/-- Fields of a `CircuitBreaker` instance (gateway.py lines 19–26). -/
structure Breaker where
  state : CBState
  failure_count : Nat
  last_failure_time : Option Int
  failure_threshold : Nat
  reset_timeout_seconds : Int
deriving DecidableEq, Repr

/-- State built by `CircuitBreaker.__init__` with the default thresholds. -/
def Breaker.init : Breaker :=
  { state := .CLOSED
    failure_count := 0
    last_failure_time := none
    failure_threshold := 3
    reset_timeout_seconds := 10 }

/-- Embeds `CircuitBreaker.record_success` (gateway.py lines 28–33): from any state,
become CLOSED, zero the failure count, clear the last failure time. -/
def record_success (b : Breaker) : Breaker :=
  { b with state := .CLOSED, failure_count := 0, last_failure_time := none }

/-- Embeds `CircuitBreaker.record_failure` (gateway.py lines 35–43): increment the
count and stamp the time; a CLOSED breaker at or past the threshold opens;
a HALF-OPEN breaker reopens. -/
def record_failure (now : Int) (b : Breaker) : Breaker :=
  let b' := { b with failure_count := b.failure_count + 1, last_failure_time := some now }
  if b'.state = CBState.CLOSED ∧ b'.failure_threshold ≤ b'.failure_count then
    { b' with state := .OPEN }
  else if b'.state = CBState.HALF_OPEN then
    { b' with state := .OPEN }
  else b'

/-- Embeds `CircuitBreaker.is_open` (gateway.py lines 45–51): an OPEN breaker whose
last failure is older than the reset timeout flips to HALF-OPEN but still
answers `true`; any other state answers `false` unchanged.  In state OPEN
with `last_failure_time = None` the Python subtraction raises `TypeError`,
modelled as `Except.error`. -/
def is_open (now : Int) (b : Breaker) : Except Unit (Bool × Breaker) :=
  if b.state = CBState.OPEN then
    match b.last_failure_time with
    | none => .error ()
    | some t =>
      if b.reset_timeout_seconds < now - t then
        .ok (true, { b with state := .HALF_OPEN })
      else
        .ok (true, b)
  else .ok (false, b)

/-- The list comprehension in `is_rate_limited` (gateway.py lines 136–139):
keep only timestamps within the trailing 60 seconds of `now`. -/
def pruneWindow (now : Int) (w : List Int) : List Int :=
  w.filter (fun ts => now - ts ≤ 60)

/-- Embeds `APIGateway.is_rate_limited` (gateway.py lines 133–145) acting on one
client's stored window: prune, then deny (`true`) when the window has
reached the limit — without recording `now` — else append `now` and admit.
Returns (denied?, new stored window). -/
def is_rate_limited (limit : Nat) (now : Int) (w : List Int) : Bool × List Int :=
  let w' := pruneWindow now w
  if limit ≤ w'.length then (true, w')
  else (false, w' ++ [now])

/-- Python's `str.capitalize`: first character upper-cased, the rest lower-cased. -/
def pyCapitalize (s : String) : String :=
  s.toLower.capitalize

/-- The metadata object attached to recognized success envelopes
(gateway.py lines 307–310). -/
def gatewayMetadata (now : Int) : JVal :=
  .obj [("processed_by", .str "MyAPIGateway"), ("timestamp", .num now)]

/-- First if-block of the error branch of `_transform_response`
(gateway.py lines 318–319): add `status = "error"` when absent. -/
def ensure_status (d : JDict) : JDict :=
  if acontains d "status" then d else aset d "status" (.str "error")

/-- Second if-block (gateway.py lines 320–322): when `message` is absent
but `error` is present, move the `error` value to `message`. -/
def rename_error (d : JDict) : JDict :=
  if acontains d "message" then d
  else
    match alookup d "error" with
    | some v => aremove (aset d "message" v) "error"
    | none => d

/-- Third if-block (gateway.py lines 324–325): default `message` when it is
still absent. -/
def ensure_message (service : String) (d : JDict) : JDict :=
  if acontains d "message" then d
  else aset d "message" (.str ("An error occurred with " ++ service ++ " service."))

/-- The error-normalization block of `_transform_response`
(gateway.py lines 315–325): the three if-blocks in source order. -/
def transform_error (service : String) (d : JDict) : JDict :=
  ensure_message service (rename_error (ensure_status d))

/-- Embeds `APIGateway._transform_response` (gateway.py lines 290–327): 2xx/3xx dict
payloads carrying a `status` or `data` field get `gateway_metadata`; dict
payloads at status ≥ 400 are normalized by `transform_error`; everything
else — and the status code — passes through unchanged. -/
def transform_response (now : Int) (service : String) (payload : JVal) (status : Int) :
    JVal × Int :=
  match payload with
  | .obj d =>
    if 200 ≤ status ∧ status < 400 then
      if acontains d "status" ∨ acontains d "data" then
        (.obj (aset d "gateway_metadata" (gatewayMetadata now)), status)
      else (.obj d, status)
    else if 400 ≤ status then
      (.obj (transform_error service d), status)
    else (.obj d, status)
  | p => (p, status)

/-- Embeds `APIGateway._transform_request` (gateway.py lines 66–104), value level:
inject `X-Internal-Auth` derived from the original `X-API-KEY`, default the
`User-Agent`, stamp a non-empty dict body with the gateway timestamp, and
strip the API-key header (either casing). -/
def transform_request (now : Int) (headers : Headers) (body : JVal) : Headers × JVal :=
  let th1 :=
    match alookup headers "X-API-KEY" with
    | some k =>
      if k ≠ "" then aset headers "X-Internal-Auth" ("internal_token_for_" ++ k)
      else headers
    | none => headers
  let th2 := if acontains th1 "User-Agent" then th1 else aset th1 "User-Agent" "API-Gateway/1.0"
  let tb :=
    match body with
    | .obj d => if d.isEmpty then body else .obj (aset d "gateway_processed_timestamp" (.num now))
    | _ => body
  let th3 :=
    if acontains th2 "X-API-KEY" then aremove th2 "X-API-KEY"
    else if acontains th2 "X-Api-Key" then aremove th2 "X-Api-Key"
    else th2
  (th3, tb)

/-- One row of the `api_logs` sink (`_log_request`'s columns). -/
structure LogRecord where
  endpoint : String
  http_method : String
  status_code : Int
  response_time_ms : Int
  is_error : Bool
deriving DecidableEq, Repr

/-- Outcome of one invocation of a mocked downstream handler: a normal
`(payload, statusCode)` return, or a raised exception. -/
inductive HResult where
  | ok (payload : JVal) (status : Int) : HResult
  | raise : HResult

/-- Result of `handle_service_request`: client-visible payload/status, the
updated breaker map, the log records it wrote itself, and whether the
downstream handler was invoked. -/
structure HsrResult where
  payload : JVal
  status : Int
  breakers : List (String × Breaker)
  logs : List LogRecord
  invoked : Bool

/-- Embeds `APIGateway.handle_service_request` (gateway.py lines 191–250).  The
handler's behaviour is the `handler` parameter (the source draws it from
`random`); `mockServices` is the key set of `self.mock_services`.  An
exception escaping `is_open` propagates as `Except.error` (the only
statement outside the dispatch `try`). -/
def handle_service_request (now : Int) (handler : Headers → JVal → HResult)
    (breakers : List (String × Breaker)) (mockServices : List String)
    (service fullPath method : String) (headers : Headers) (body : JVal) :
    Except Unit HsrResult :=
  match alookup breakers service with
  | none =>
    let plst := transform_response now service
      (.obj [("message", .str "Internal Server Error: Circuit breaker not configured."),
             ("status", .str "error")]) 500
    .ok { payload := plst.1, status := plst.2, breakers := breakers, logs := [], invoked := false }
  | some cb =>
    match is_open now cb with
    | .error e => .error e
    | .ok (opened, cb') =>
      let breakers1 := aset breakers service cb'
      if opened then
        let plst := transform_response now service
          (.obj [("message", .str (pyCapitalize service ++ " Service Unavailable")),
                 ("status", .str "error")]) 503
        .ok { payload := plst.1, status := plst.2, breakers := breakers1,
              logs := [⟨fullPath, method, 503, 0, true⟩], invoked := false }
      else
        let th := (transform_request now headers body).1
        let tb := (transform_request now headers body).2
        if service ∈ mockServices then
          match handler th tb with
          | .ok rd sc =>
            let trdst := transform_response now service rd sc
            let cb2 :=
              if 200 ≤ sc ∧ sc < 400 then record_success cb'
              else if 500 ≤ sc then record_failure now cb'
              else cb'
            .ok { payload := trdst.1, status := trdst.2, breakers := aset breakers1 service cb2,
                  logs := [], invoked := true }
          | .raise =>
            let cb2 := record_failure now cb'
            let plst := transform_response now service
              (.obj [("message", .str ("Gateway could not process request to " ++ service ++ ".")),
                     ("status", .str "error")]) 500
            .ok { payload := plst.1, status := plst.2, breakers := aset breakers1 service cb2,
                  logs := [], invoked := true }
        else
          let plst := transform_response now service
            (.obj [("message", .str "Service handler not configured."),
                   ("status", .str "error")]) 404
          .ok { payload := plst.1, status := plst.2, breakers := breakers1, logs := [], invoked := false }

/-- Result of `process_request`: as `HsrResult`, with the finally-block log
record appended. -/
structure PrResult where
  payload : JVal
  status : Int
  breakers : List (String × Breaker)
  logs : List LogRecord
  invoked : Bool

/-- Embeds `APIGateway.process_request` (gateway.py lines 252–288): unknown service
name → plain 404 payload; otherwise delegate to `handle_service_request`,
catching any exception into a transformed 500; the `finally` block always
appends one log record with the measured elapsed time. -/
def process_request (now elapsedMs : Int) (handler : Headers → JVal → HResult)
    (breakers : List (String × Breaker)) (mockServices : List String)
    (service fullPath method : String) (headers : Headers) (body : JVal) : PrResult :=
  if service ∈ mockServices then
    match handle_service_request now handler breakers mockServices service fullPath method headers body with
    | .ok r =>
      { payload := r.payload, status := r.status, breakers := r.breakers,
        logs := r.logs ++ [⟨fullPath, method, r.status, elapsedMs, decide (400 ≤ r.status)⟩],
        invoked := r.invoked }
    | .error _ =>
      let plst := transform_response now "gateway_error"
        (.obj [("message", .str "An unhandled gateway error occurred."),
               ("status", .str "error")]) 500
      { payload := plst.1, status := plst.2, breakers := breakers,
        logs := [⟨fullPath, method, plst.2, elapsedMs, true⟩], invoked := false }
  else
    { payload := .obj [("message", .str "Service not found."), ("status", .str "error")],
      status := 404, breakers := breakers,
      logs := [⟨fullPath, method, 404, elapsedMs, true⟩], invoked := false }

/-- Embeds `APIGateway._authenticate_request` (gateway.py lines 106–131): an empty
key denies without querying the store; a store lookup failure
(`Except.error`) is caught and denies (fail-closed); otherwise the store's
answer decides. -/
def authenticate (store : String → Except Unit Bool) (apiKey : String) : Bool :=
  if apiKey = "" then false
  else
    match store apiKey with
    | .ok b => b
    | .error _ => false

/-- The stored window of a client in the `request_timestamps` defaultdict:
a missing key reads as the empty list. -/
def wlookup (ws : List (String × List Int)) (k : String) : List Int :=
  (alookup ws k).getD []

/-- Result of the full modelled pipeline. -/
structure PipelineResult where
  payload : JVal
  status : Int
  breakers : List (String × Breaker)
  windows : List (String × List Int)
  logs : List LogRecord
  invoked : Bool

/-- Modelled from the spec: the composition root wiring the authentication
gate and the rate limiter in front of `process_request` is not among the
source files (gateway.py declares `_authenticate_request` and
`is_rate_limited` but nothing there calls them).  Following spec steps 1–2:
authenticate first (deny → 401, error payload, one log with time 0, breaker
untouched), rate-limit second (deny → 429, error payload, one log with
time 0, breaker untouched), then delegate to the embedded
`process_request`. -/
def pipeline (now elapsedMs : Int) (store : String → Except Unit Bool) (limit : Nat)
    (handler : Headers → JVal → HResult)
    (breakers : List (String × Breaker)) (windows : List (String × List Int))
    (mockServices : List String)
    (service fullPath method clientKey apiKey : String)
    (headers : Headers) (body : JVal) : PipelineResult :=
  if ¬ authenticate store apiKey then
    { payload := .obj [("status", .str "error"),
                       ("message", .str "Unauthorized: invalid or missing API key.")],
      status := 401, breakers := breakers, windows := windows,
      logs := [⟨fullPath, method, 401, 0, true⟩], invoked := false }
  else
    let denied := (is_rate_limited limit now (wlookup windows clientKey)).1
    let w' := (is_rate_limited limit now (wlookup windows clientKey)).2
    let windows' := aset windows clientKey w'
    if denied then
      { payload := .obj [("status", .str "error"),
                         ("message", .str "Too many requests. Please try again later.")],
        status := 429, breakers := breakers, windows := windows',
        logs := [⟨fullPath, method, 429, 0, true⟩], invoked := false }
    else
      let r := process_request now elapsedMs handler breakers mockServices service fullPath method headers body
      { payload := r.payload, status := r.status, breakers := r.breakers,
        windows := windows', logs := r.logs, invoked := r.invoked }

/-! ### Object-identity model of the two transformation functions

To settle whether the transforms mutate their callers' objects, the two
functions are re-embedded statement by statement over an explicit heap of
dict objects: a Python variable holding a dict is an index into the heap,
assignment of a dict expression to a subscript mutates the heap entry,
`dict(h)` / `d.copy()` allocates a fresh entry, and plain name binding
(`transformed_response_data = response_data`) copies the index. -/

/-- The mutable-state of `_transform_request`: a heap of header dicts and a
heap of JSON body dicts. -/
structure ReqHeaps where
  hheap : List Headers
  bheap : List JDict

/-- Embeds `APIGateway._transform_request` (gateway.py lines 66–104) over the
object heap.  `headersRef` is the caller's header dict; `body` is `some r`
when `json_data` is the dict at `r` and `none` for a non-dict body.
Returns the state after the call and the refs of the returned objects. -/
def transform_request_impl (now : Int) (s : ReqHeaps) (headersRef : Nat)
    (body : Option Nat) : ReqHeaps × Nat × Option Nat :=
  let origH := s.hheap.getD headersRef []
  let thRef := s.hheap.length
  let hh0 := s.hheap ++ [origH]
  let bh0 :=
    match body with
    | some r => s.bheap ++ [s.bheap.getD r []]
    | none => s.bheap
  let tbody :=
    match body with
    | some _ => some s.bheap.length
    | none => none
  let hh1 :=
    match alookup origH "X-API-KEY" with
    | some k =>
      if k ≠ "" then
        hh0.set thRef (aset (hh0.getD thRef []) "X-Internal-Auth" ("internal_token_for_" ++ k))
      else hh0
    | none => hh0
  let hh2 :=
    if acontains (hh1.getD thRef []) "User-Agent" then hh1
    else hh1.set thRef (aset (hh1.getD thRef []) "User-Agent" "API-Gateway/1.0")
  let bh1 :=
    match tbody with
    | some r =>
      let d := bh0.getD r []
      if d.isEmpty then bh0
      else bh0.set r (aset d "gateway_processed_timestamp" (.num now))
    | none => bh0
  let hh3 :=
    let d := hh2.getD thRef []
    if acontains d "X-API-KEY" then hh2.set thRef (aremove d "X-API-KEY")
    else if acontains d "X-Api-Key" then hh2.set thRef (aremove d "X-Api-Key")
    else hh2
  (⟨hh3, bh1⟩, thRef, tbody)

/-- First error if-block of `_transform_response` acting in place on the
dict object at `r` (gateway.py lines 318–319). -/
def heap_ensure_status (h : List JDict) (r : Nat) : List JDict :=
  let d := h.getD r []
  if acontains d "status" then h else h.set r (aset d "status" (.str "error"))

/-- Second error if-block acting in place on the dict object at `r`
(gateway.py lines 320–322). -/
def heap_rename_error (h : List JDict) (r : Nat) : List JDict :=
  let d := h.getD r []
  if acontains d "message" then h
  else
    match alookup d "error" with
    | some v => h.set r (aremove (aset d "message" v) "error")
    | none => h

/-- Third error if-block acting in place on the dict object at `r`
(gateway.py lines 324–325). -/
def heap_ensure_message (service : String) (h : List JDict) (r : Nat) : List JDict :=
  let d := h.getD r []
  if acontains d "message" then h
  else h.set r (aset d "message" (.str ("An error occurred with " ++ service ++ " service.")))

/-- Embeds `APIGateway._transform_response` (gateway.py lines 290–327) over the
object heap.  `transformed_response_data = response_data` binds the same
object, so every subscript assignment below mutates the caller's dict
at `r`; a non-dict payload (`none`) passes through. -/
def transform_response_impl (now : Int) (h : List JDict) (service : String)
    (payload : Option Nat) (status : Int) : List JDict × Option Nat × Int :=
  match payload with
  | none => (h, none, status)
  | some r =>
    if 200 ≤ status ∧ status < 400 then
      let d := h.getD r []
      if acontains d "status" ∨ acontains d "data" then
        (h.set r (aset d "gateway_metadata" (gatewayMetadata now)), some r, status)
      else (h, some r, status)
    else if 400 ≤ status then
      (heap_ensure_message service (heap_rename_error (heap_ensure_status h r) r) r,
        some r, status)
    else (h, some r, status)

/-- The field list of a dict payload (empty for non-dict values). -/
def objFields : JVal → JDict
  | .obj d => d
  | _ => []

/-- Number of entries of a dict carrying the key `k`. -/
def countKey (k : String) (d : JDict) : Nat :=
  (d.filter (fun p => p.1 = k)).length

/-! ### Association-list lemmas -/

theorem alookup_aset_self {α : Type} (d : List (String × α)) (k : String) (v : α) :
    alookup (aset d k v) k = some v := by
  induction d with
  | nil => simp [aset, alookup]
  | cons p rest ih =>
    obtain ⟨k', v'⟩ := p
    by_cases h : k' = k
    · simp [aset, h, alookup]
    · simp [aset, h, alookup, ih]

theorem alookup_aset_ne {α : Type} (d : List (String × α)) (k k' : String) (v : α)
    (h : k' ≠ k) : alookup (aset d k' v) k = alookup d k := by
  induction d with
  | nil => simp [aset, alookup, h]
  | cons p rest ih =>
    obtain ⟨k₀, v₀⟩ := p
    by_cases h0 : k₀ = k'
    · simp [aset, h0, alookup, h]
    · simp only [aset, h0, if_neg h0]
      by_cases h1 : k₀ = k
      · simp [alookup, h1]
      · simp [alookup, h1, ih]

theorem acontains_aset_self {α : Type} (d : List (String × α)) (k : String) (v : α) :
    acontains (aset d k v) k = true := by
  simp [acontains, alookup_aset_self]

theorem acontains_aset_ne {α : Type} (d : List (String × α)) (k k' : String) (v : α)
    (h : k' ≠ k) : acontains (aset d k' v) k = acontains d k := by
  simp [acontains, alookup_aset_ne d k k' v h]

theorem aremove_nil {α : Type} (k : String) : aremove ([] : List (String × α)) k = [] := rfl

theorem aremove_cons {α : Type} (k₀ : String) (v₀ : α) (rest : List (String × α)) (k : String) :
    aremove ((k₀, v₀) :: rest) k =
      if k₀ = k then aremove rest k else (k₀, v₀) :: aremove rest k := by
  by_cases h : k₀ = k <;> simp [aremove, List.filter_cons, h]

theorem alookup_aremove_ne {α : Type} (d : List (String × α)) (k k' : String)
    (h : k' ≠ k) : alookup (aremove d k') k = alookup d k := by
  induction d with
  | nil => simp [aremove_nil, alookup]
  | cons p rest ih =>
    obtain ⟨k₀, v₀⟩ := p
    rw [aremove_cons]
    by_cases h0 : k₀ = k'
    · have hk : k₀ ≠ k := by rw [h0]; exact h
      simp [h0, alookup, hk, ih, h]
    · by_cases h1 : k₀ = k
      · have hk' : k ≠ k' := Ne.symm h
        simp [h0, alookup, h1, hk']
      · simp [h0, alookup, h1, ih]

theorem acontains_aremove_self {α : Type} (d : List (String × α)) (k : String) :
    acontains (aremove d k) k = false := by
  induction d with
  | nil => simp [aremove_nil, acontains, alookup]
  | cons p rest ih =>
    obtain ⟨k₀, v₀⟩ := p
    rw [acontains, aremove_cons]
    by_cases h0 : k₀ = k
    · simpa [acontains, h0] using ih
    · simpa [alookup, h0, acontains] using ih

theorem acontains_aremove_ne {α : Type} (d : List (String × α)) (k k' : String)
    (h : k' ≠ k) : acontains (aremove d k') k = acontains d k := by
  simp [acontains, alookup_aremove_ne d k k' h]

theorem aset_of_alookup_eq {α : Type} (d : List (String × α)) (k : String) (v : α)
    (h : alookup d k = some v) : aset d k v = d := by
  induction d with
  | nil => simp [alookup] at h
  | cons p rest ih =>
    obtain ⟨k₀, v₀⟩ := p
    by_cases h0 : k₀ = k
    · simp only [alookup, if_pos h0] at h
      obtain rfl : v₀ = v := by injection h
      simp [aset, h0]
    · simp only [alookup, if_neg h0] at h
      simp [aset, h0, ih h]

/-! ### Lemmas about the error-normalization steps -/

theorem acontains_false_alookup {α : Type} (d : List (String × α)) (k : String)
    (h : acontains d k = false) : alookup d k = none := by
  simpa [acontains, Option.isSome_iff_exists] using h

theorem ensure_status_contains_status (d : JDict) :
    acontains (ensure_status d) "status" = true := by
  unfold ensure_status
  by_cases h : acontains d "status"
  · simp [h]
  · simp [h, acontains_aset_self]

theorem ensure_status_alookup_ne (d : JDict) (k : String) (h : k ≠ "status") :
    alookup (ensure_status d) k = alookup d k := by
  unfold ensure_status
  by_cases hc : acontains d "status"
  · simp [hc]
  · simp [hc, alookup_aset_ne d k "status" _ (Ne.symm h)]

theorem ensure_status_acontains_ne (d : JDict) (k : String) (h : k ≠ "status") :
    acontains (ensure_status d) k = acontains d k := by
  simp [acontains, ensure_status_alookup_ne d k h]

theorem ensure_status_of_contains (d : JDict) (h : acontains d "status" = true) :
    ensure_status d = d := by
  simp [ensure_status, h]

theorem ensure_status_alookup_status (d : JDict) (h : acontains d "status" = false) :
    alookup (ensure_status d) "status" = some (.str "error") := by
  simp [ensure_status, h, alookup_aset_self]

theorem rename_error_of_contains (d : JDict) (h : acontains d "message" = true) :
    rename_error d = d := by
  simp [rename_error, h]

theorem rename_error_alookup_status (d : JDict) :
    alookup (rename_error d) "status" = alookup d "status" := by
  unfold rename_error
  by_cases h : acontains d "message"
  · simp [h]
  · rw [if_neg h]
    match hl : alookup d "error" with
    | some v =>
      show alookup (aremove (aset d "message" v) "error") "status" = alookup d "status"
      rw [alookup_aremove_ne _ "status" "error" (by decide),
        alookup_aset_ne d "status" "message" v (by decide)]
    | none => rfl

theorem rename_error_contains_message (d : JDict) :
    acontains (rename_error d) "message" = (acontains d "message" || acontains d "error") := by
  unfold rename_error
  by_cases h : acontains d "message"
  · simp [h]
  · have hm0 : acontains d "message" = false := by simpa using h
    rw [if_neg h, hm0, Bool.false_or]
    match hl : alookup d "error" with
    | some v =>
      have he : acontains d "error" = true := by simp [acontains, hl]
      rw [he]
      show acontains (aremove (aset d "message" v) "error") "message" = true
      rw [acontains_aremove_ne _ "message" "error" (by decide)]
      exact acontains_aset_self d "message" v
    | none =>
      have he : acontains d "error" = false := by simp [acontains, hl]
      rw [he]
      exact hm0

theorem ensure_message_of_contains (service : String) (d : JDict)
    (h : acontains d "message" = true) : ensure_message service d = d := by
  simp [ensure_message, h]

theorem ensure_message_contains_message (service : String) (d : JDict) :
    acontains (ensure_message service d) "message" = true := by
  unfold ensure_message
  by_cases h : acontains d "message"
  · simp [h]
  · simp [h, acontains_aset_self]

theorem ensure_message_alookup_ne (service : String) (d : JDict) (k : String)
    (h : k ≠ "message") : alookup (ensure_message service d) k = alookup d k := by
  unfold ensure_message
  by_cases hc : acontains d "message"
  · simp [hc]
  · simp [hc, alookup_aset_ne d k "message" _ (Ne.symm h)]

theorem transform_error_contains_status (service : String) (d : JDict) :
    acontains (transform_error service d) "status" = true := by
  unfold transform_error
  have h1 := ensure_status_contains_status d
  calc acontains (ensure_message service (rename_error (ensure_status d))) "status"
      = acontains (rename_error (ensure_status d)) "status" := by
        simp [acontains,
          ensure_message_alookup_ne service (rename_error (ensure_status d)) "status" (by decide)]
    _ = acontains (ensure_status d) "status" := by
        simp [acontains, rename_error_alookup_status]
    _ = true := h1

theorem transform_error_contains_message (service : String) (d : JDict) :
    acontains (transform_error service d) "message" = true :=
  ensure_message_contains_message _ _

theorem transform_error_idem (service : String) (d : JDict) :
    transform_error service (transform_error service d) = transform_error service d := by
  have hs := transform_error_contains_status service d
  have hm := transform_error_contains_message service d
  unfold transform_error at hs hm ⊢
  rw [ensure_status_of_contains _ hs, rename_error_of_contains _ hm,
    ensure_message_of_contains _ _ hm]

theorem rename_error_eq_some (d : JDict) (v : JVal) (hm : acontains d "message" = false)
    (he : alookup d "error" = some v) :
    rename_error d = aremove (aset d "message" v) "error" := by
  unfold rename_error
  rw [if_neg (by simp [hm]), he]

theorem rename_error_eq_none (d : JDict) (hm : acontains d "message" = false)
    (he : alookup d "error" = none) : rename_error d = d := by
  unfold rename_error
  rw [if_neg (by simp [hm]), he]

theorem transform_response_success_eq (now : Int) (service : String) (d : JDict)
    (status : Int) (h2 : 200 ≤ status) (h4 : status < 400) :
    transform_response now service (.obj d) status =
      (if acontains d "status" ∨ acontains d "data" then
        JVal.obj (aset d "gateway_metadata" (gatewayMetadata now))
      else .obj d, status) := by
  unfold transform_response
  dsimp only
  rw [if_pos ⟨h2, h4⟩]
  split_ifs <;> rfl

theorem transform_response_error_eq (now : Int) (service : String) (d : JDict)
    (status : Int) (h4 : 400 ≤ status) :
    transform_response now service (.obj d) status =
      (.obj (transform_error service d), status) := by
  unfold transform_response
  dsimp only
  rw [if_neg (by omega), if_pos h4]

/-! ### Heap lemmas for the object-identity model -/

theorem heap_getD_set_ne {α : Type} (l : List α) (i j : Nat) (x d : α) (h : i ≠ j) :
    (l.set i x).getD j d = l.getD j d := by
  rw [List.getD_eq_getD_get?, List.getD_eq_getD_get?, List.get?_eq_getElem?,
    List.get?_eq_getElem?, List.getElem?_set_ne h]

theorem heap_getD_set_self {α : Type} (l : List α) (i : Nat) (x d : α) (h : i < l.length) :
    (l.set i x).getD i d = x := by
  rw [List.getD_eq_getD_get?, List.get?_eq_getElem?, List.getElem?_set_self h]
  rfl

theorem heap_ensure_status_spec (h : List JDict) (r : Nat) (hr : r < h.length) :
    (heap_ensure_status h r).getD r [] = ensure_status (h.getD r []) ∧
    (heap_ensure_status h r).length = h.length := by
  unfold heap_ensure_status ensure_status
  dsimp only
  by_cases hc : acontains (h.getD r []) "status"
  · rw [if_pos hc, if_pos hc]
    exact ⟨rfl, rfl⟩
  · rw [if_neg hc, if_neg hc]
    exact ⟨heap_getD_set_self h r _ [] hr, by simp⟩

theorem heap_rename_error_spec (h : List JDict) (r : Nat) (hr : r < h.length) :
    (heap_rename_error h r).getD r [] = rename_error (h.getD r []) ∧
    (heap_rename_error h r).length = h.length := by
  unfold heap_rename_error rename_error
  dsimp only
  by_cases hc : acontains (h.getD r []) "message"
  · rw [if_pos hc, if_pos hc]
    exact ⟨rfl, rfl⟩
  · rw [if_neg hc, if_neg hc]
    match hl : alookup (h.getD r []) "error" with
    | some v => exact ⟨heap_getD_set_self h r _ [] hr, by simp⟩
    | none => exact ⟨rfl, rfl⟩

theorem heap_ensure_message_spec (service : String) (h : List JDict) (r : Nat)
    (hr : r < h.length) :
    (heap_ensure_message service h r).getD r [] =
      ensure_message service (h.getD r []) ∧
    (heap_ensure_message service h r).length = h.length := by
  unfold heap_ensure_message ensure_message
  dsimp only
  by_cases hc : acontains (h.getD r []) "message"
  · rw [if_pos hc, if_pos hc]
    exact ⟨rfl, rfl⟩
  · rw [if_neg hc, if_neg hc]
    exact ⟨heap_getD_set_self h r _ [] hr, by simp⟩

theorem transform_response_impl_error_getD (now : Int) (h : List JDict) (service : String)
    (r : Nat) (status : Int) (hr : r < h.length) (h4 : 400 ≤ status) :
    (transform_response_impl now h service (some r) status).1.getD r [] =
      transform_error service (h.getD r []) := by
  unfold transform_response_impl
  dsimp only
  rw [if_neg (by omega), if_pos h4]
  dsimp only
  have s1 := heap_ensure_status_spec h r hr
  have s2 := heap_rename_error_spec (heap_ensure_status h r) r (by rw [s1.2]; exact hr)
  have s3 := heap_ensure_message_spec service
    (heap_rename_error (heap_ensure_status h r) r) r (by rw [s2.2, s1.2]; exact hr)
  rw [s3.1, s2.1, s1.1]
  rfl

theorem transform_response_impl_getD (now : Int) (h : List JDict) (service : String)
    (r : Nat) (status : Int) (hr : r < h.length) :
    (transform_response_impl now h service (some r) status).2.1 = some r ∧
    (transform_response_impl now h service (some r) status).1.getD r [] =
      objFields (transform_response now service (.obj (h.getD r [])) status).1 := by
  constructor
  · unfold transform_response_impl
    dsimp only
    split_ifs <;> rfl
  · by_cases hs : 200 ≤ status ∧ status < 400
    · rw [transform_response_success_eq now service _ status hs.1 hs.2]
      unfold transform_response_impl
      dsimp only
      rw [if_pos hs]
      by_cases hc : acontains (h.getD r []) "status" ∨ acontains (h.getD r []) "data"
      · rw [if_pos hc, if_pos hc]
        dsimp only
        rw [heap_getD_set_self h r _ [] hr]
        rfl
      · rw [if_neg hc, if_neg hc]
        rfl
    · by_cases h4 : 400 ≤ status
      · rw [transform_response_impl_error_getD now h service r status hr h4,
          transform_response_error_eq now service _ status h4]
        rfl
      · unfold transform_response_impl transform_response
        dsimp only
        rw [if_neg hs, if_neg h4, if_neg hs, if_neg h4]
        rfl

theorem transform_request_impl_frame (now : Int) (s : ReqHeaps) (headersRef bodyRef : Nat)
    (hh : headersRef < s.hheap.length) (hb : bodyRef < s.bheap.length) :
    (transform_request_impl now s headersRef (some bodyRef)).1.hheap.getD headersRef [] =
      s.hheap.getD headersRef [] ∧
    (transform_request_impl now s headersRef (some bodyRef)).1.bheap.getD bodyRef [] =
      s.bheap.getD bodyRef [] := by
  have hneH : s.hheap.length ≠ headersRef := by omega
  have hneB : s.bheap.length ≠ bodyRef := by omega
  have hsetH : ∀ (l : List Headers) (x : Headers),
      (l.set s.hheap.length x).getD headersRef [] = l.getD headersRef [] :=
    fun l x => heap_getD_set_ne l s.hheap.length headersRef x [] hneH
  have hsetB : ∀ (l : List JDict) (x : JDict),
      (l.set s.bheap.length x).getD bodyRef [] = l.getD bodyRef [] :=
    fun l x => heap_getD_set_ne l s.bheap.length bodyRef x [] hneB
  unfold transform_request_impl
  dsimp only
  constructor
  · cases halk : alookup (s.hheap.getD headersRef []) "X-API-KEY" with
    | none =>
      dsimp only
      split_ifs <;> (try simp only [hsetH]) <;> exact List.getD_append _ _ _ _ hh
    | some k =>
      dsimp only
      split_ifs <;> (try simp only [hsetH]) <;> exact List.getD_append _ _ _ _ hh
  · dsimp only
    split_ifs <;> (try simp only [hsetB]) <;> exact List.getD_append _ _ _ _ hb

/-! ### Circuit-breaker step lemmas -/

theorem record_failure_lft (b : Breaker) (now : Int) :
    (record_failure now b).last_failure_time = some now := by
  unfold record_failure
  dsimp only
  split_ifs <;> rfl

theorem record_failure_threshold (b : Breaker) (now : Int) :
    (record_failure now b).failure_threshold = b.failure_threshold := by
  unfold record_failure
  dsimp only
  split_ifs <;> rfl

theorem record_failure_closed_lt (b : Breaker) (now : Int) (hs : b.state = CBState.CLOSED)
    (hlt : b.failure_count + 1 < b.failure_threshold) :
    record_failure now b =
      { b with failure_count := b.failure_count + 1, last_failure_time := some now } := by
  unfold record_failure
  dsimp only
  rw [if_neg (by rintro ⟨-, hc⟩; omega), if_neg (by simp [hs])]

theorem record_failure_closed_ge (b : Breaker) (now : Int) (hs : b.state = CBState.CLOSED)
    (hge : b.failure_threshold ≤ b.failure_count + 1) :
    record_failure now b =
      { b with state := .OPEN, failure_count := b.failure_count + 1,
               last_failure_time := some now } := by
  unfold record_failure
  dsimp only
  rw [if_pos ⟨hs, hge⟩]

theorem record_failure_open_eq (b : Breaker) (now : Int) (hs : b.state = CBState.OPEN) :
    record_failure now b =
      { b with failure_count := b.failure_count + 1, last_failure_time := some now } := by
  unfold record_failure
  dsimp only
  rw [if_neg (by simp [hs]), if_neg (by simp [hs])]

theorem record_failure_half_open (b : Breaker) (now : Int) (hs : b.state = CBState.HALF_OPEN) :
    record_failure now b =
      { b with state := .OPEN, failure_count := b.failure_count + 1,
               last_failure_time := some now } := by
  unfold record_failure
  dsimp only
  rw [if_neg (by simp [hs]), if_pos hs]

theorem iterate_record_failure_open (now : Int) :
    ∀ (k : Nat) (b : Breaker), b.state = CBState.OPEN →
      (((record_failure now)^[k]) b).state = CBState.OPEN
  | 0, b, hs => by simpa using hs
  | k + 1, b, hs => by
    rw [Function.iterate_succ_apply]
    refine iterate_record_failure_open now k _ ?_
    rw [record_failure_open_eq b now hs]
    exact hs

theorem iterate_record_failure_state (now : Int) :
    ∀ (k : Nat) (b : Breaker), b.state = CBState.CLOSED →
      b.failure_count < b.failure_threshold →
      ((((record_failure now)^[k]) b).state = CBState.OPEN ↔
        b.failure_threshold ≤ b.failure_count + k)
  | 0, b, hs, hlt => by
    rw [Function.iterate_zero_apply]
    simp [hs]
    omega
  | k + 1, b, hs, hlt => by
    rw [Function.iterate_succ_apply]
    by_cases hge : b.failure_threshold ≤ b.failure_count + 1
    · have h1 := record_failure_closed_ge b now hs hge
      have hopen : (((record_failure now)^[k]) (record_failure now b)).state = CBState.OPEN := by
        refine iterate_record_failure_open now k _ ?_
        rw [h1]
      rw [hopen]
      simp only [true_iff]
      omega
    · have h1 := record_failure_closed_lt b now hs (by omega)
      rw [h1]
      have ih := iterate_record_failure_state now k
        { b with failure_count := b.failure_count + 1, last_failure_time := some now }
        (by simpa using hs) (by simp; omega)
      simp only at ih
      rw [ih]
      constructor <;> (intro h; omega)

/-! ### `is_open` and pipeline unfolding lemmas -/

theorem is_open_not_open (b : Breaker) (now : Int) (hs : b.state ≠ CBState.OPEN) :
    is_open now b = .ok (false, b) := by
  unfold is_open
  rw [if_neg hs]

theorem is_open_stay (b : Breaker) (now t : Int) (hs : b.state = CBState.OPEN)
    (hl : b.last_failure_time = some t) (ht : ¬ b.reset_timeout_seconds < now - t) :
    is_open now b = .ok (true, b) := by
  unfold is_open
  simp only [hs, hl, if_true, if_pos]
  rw [if_neg ht]

theorem is_open_trans (b : Breaker) (now t : Int) (hs : b.state = CBState.OPEN)
    (hl : b.last_failure_time = some t) (ht : b.reset_timeout_seconds < now - t) :
    is_open now b = .ok (true, { b with state := .HALF_OPEN }) := by
  unfold is_open
  simp only [hs, hl, if_true, if_pos]
  rw [if_pos ht]

theorem is_open_crash (b : Breaker) (now : Int) (hs : b.state = CBState.OPEN)
    (hl : b.last_failure_time = none) : is_open now b = .error () := by
  unfold is_open
  simp only [hs, hl, if_true, if_pos]

theorem transform_response_status (now : Int) (service : String) (payload : JVal)
    (status : Int) : (transform_response now service payload status).2 = status := by
  unfold transform_response
  cases payload <;> first
    | rfl
    | (dsimp only; split_ifs <;> rfl)

theorem hsr_open_eq (now : Int) (handler : Headers → JVal → HResult)
    (breakers : List (String × Breaker)) (mockServices : List String)
    (service fullPath method : String) (headers : Headers) (body : JVal)
    (cb cb' : Breaker) (hlk : alookup breakers service = some cb)
    (hio : is_open now cb = .ok (true, cb')) :
    handle_service_request now handler breakers mockServices service fullPath method headers body =
      .ok { payload := .obj [("message", .str (pyCapitalize service ++ " Service Unavailable")),
                             ("status", .str "error")],
            status := 503,
            breakers := aset breakers service cb',
            logs := [⟨fullPath, method, 503, 0, true⟩],
            invoked := false } := by
  unfold handle_service_request
  simp only [hlk, hio]
  rfl

theorem hsr_dispatch_ok_eq (now : Int) (handler : Headers → JVal → HResult)
    (breakers : List (String × Breaker)) (mockServices : List String)
    (service fullPath method : String) (headers : Headers) (body : JVal)
    (cb : Breaker) (rd : JVal) (sc : Int)
    (hlk : alookup breakers service = some cb) (hns : cb.state ≠ CBState.OPEN)
    (hmem : service ∈ mockServices)
    (hh : handler (transform_request now headers body).1
            (transform_request now headers body).2 = .ok rd sc) :
    handle_service_request now handler breakers mockServices service fullPath method headers body =
      .ok { payload := (transform_response now service rd sc).1,
            status := (transform_response now service rd sc).2,
            breakers := aset (aset breakers service cb) service
              (if 200 ≤ sc ∧ sc < 400 then record_success cb
               else if 500 ≤ sc then record_failure now cb else cb),
            logs := [], invoked := true } := by
  unfold handle_service_request
  simp only [hlk, is_open_not_open cb now hns, hh, if_pos hmem]
  rfl

theorem hsr_dispatch_raise_eq (now : Int) (handler : Headers → JVal → HResult)
    (breakers : List (String × Breaker)) (mockServices : List String)
    (service fullPath method : String) (headers : Headers) (body : JVal)
    (cb : Breaker)
    (hlk : alookup breakers service = some cb) (hns : cb.state ≠ CBState.OPEN)
    (hmem : service ∈ mockServices)
    (hh : handler (transform_request now headers body).1
            (transform_request now headers body).2 = .raise) :
    handle_service_request now handler breakers mockServices service fullPath method headers body =
      .ok { payload := .obj [("message",
              .str ("Gateway could not process request to " ++ service ++ ".")),
              ("status", .str "error")],
            status := 500,
            breakers := aset (aset breakers service cb) service (record_failure now cb),
            logs := [], invoked := true } := by
  unfold handle_service_request
  simp only [hlk, is_open_not_open cb now hns, hh, if_pos hmem]
  rfl

theorem pr_of_hsr_ok (now elapsedMs : Int) (handler : Headers → JVal → HResult)
    (breakers : List (String × Breaker)) (mockServices : List String)
    (service fullPath method : String) (headers : Headers) (body : JVal)
    (r : HsrResult) (hmem : service ∈ mockServices)
    (hres : handle_service_request now handler breakers mockServices service fullPath
              method headers body = .ok r) :
    process_request now elapsedMs handler breakers mockServices service fullPath method
        headers body =
      { payload := r.payload, status := r.status, breakers := r.breakers,
        logs := r.logs ++ [⟨fullPath, method, r.status, elapsedMs, decide (400 ≤ r.status)⟩],
        invoked := r.invoked } := by
  unfold process_request
  rw [if_pos hmem, hres]

theorem pr_of_hsr_error (now elapsedMs : Int) (handler : Headers → JVal → HResult)
    (breakers : List (String × Breaker)) (mockServices : List String)
    (service fullPath method : String) (headers : Headers) (body : JVal)
    (hmem : service ∈ mockServices)
    (hres : handle_service_request now handler breakers mockServices service fullPath
              method headers body = .error ()) :
    process_request now elapsedMs handler breakers mockServices service fullPath method
        headers body =
      { payload := .obj [("message", .str "An unhandled gateway error occurred."),
                         ("status", .str "error")],
        status := 500, breakers := breakers,
        logs := [⟨fullPath, method, 500, elapsedMs, true⟩], invoked := false } := by
  unfold process_request
  rw [if_pos hmem, hres]
  rfl

theorem hsr_nobreaker_eq (now : Int) (handler : Headers → JVal → HResult)
    (breakers : List (String × Breaker)) (mockServices : List String)
    (service fullPath method : String) (headers : Headers) (body : JVal)
    (hlk : alookup breakers service = none) :
    handle_service_request now handler breakers mockServices service fullPath method
        headers body =
      .ok { payload := .obj [("message",
              .str "Internal Server Error: Circuit breaker not configured."),
              ("status", .str "error")],
            status := 500, breakers := breakers, logs := [], invoked := false } := by
  unfold handle_service_request
  simp only [hlk]
  rfl

theorem hsr_error_eq (now : Int) (handler : Headers → JVal → HResult)
    (breakers : List (String × Breaker)) (mockServices : List String)
    (service fullPath method : String) (headers : Headers) (body : JVal)
    (cb : Breaker) (hlk : alookup breakers service = some cb)
    (hio : is_open now cb = .error ()) :
    handle_service_request now handler breakers mockServices service fullPath method
        headers body = .error () := by
  unfold handle_service_request
  simp only [hlk, hio]

theorem pipeline_auth_deny_eq (now elapsedMs : Int) (store : String → Except Unit Bool)
    (limit : Nat) (handler : Headers → JVal → HResult)
    (breakers : List (String × Breaker)) (windows : List (String × List Int))
    (mockServices : List String)
    (service fullPath method clientKey apiKey : String) (headers : Headers) (body : JVal)
    (hauth : authenticate store apiKey = false) :
    pipeline now elapsedMs store limit handler breakers windows mockServices service
        fullPath method clientKey apiKey headers body =
      { payload := .obj [("status", .str "error"),
                         ("message", .str "Unauthorized: invalid or missing API key.")],
        status := 401, breakers := breakers, windows := windows,
        logs := [⟨fullPath, method, 401, 0, true⟩], invoked := false } := by
  unfold pipeline
  rw [if_pos (by simp [hauth])]

theorem pipeline_rate_deny_eq (now elapsedMs : Int) (store : String → Except Unit Bool)
    (limit : Nat) (handler : Headers → JVal → HResult)
    (breakers : List (String × Breaker)) (windows : List (String × List Int))
    (mockServices : List String)
    (service fullPath method clientKey apiKey : String) (headers : Headers) (body : JVal)
    (hauth : authenticate store apiKey = true)
    (hden : (is_rate_limited limit now (wlookup windows clientKey)).1 = true) :
    pipeline now elapsedMs store limit handler breakers windows mockServices service
        fullPath method clientKey apiKey headers body =
      { payload := .obj [("status", .str "error"),
                         ("message", .str "Too many requests. Please try again later.")],
        status := 429, breakers := breakers,
        windows := aset windows clientKey
          (is_rate_limited limit now (wlookup windows clientKey)).2,
        logs := [⟨fullPath, method, 429, 0, true⟩], invoked := false } := by
  unfold pipeline
  rw [if_neg (by simp [hauth])]
  dsimp only
  rw [hden, if_pos rfl]

theorem pipeline_admit_eq (now elapsedMs : Int) (store : String → Except Unit Bool)
    (limit : Nat) (handler : Headers → JVal → HResult)
    (breakers : List (String × Breaker)) (windows : List (String × List Int))
    (mockServices : List String)
    (service fullPath method clientKey apiKey : String) (headers : Headers) (body : JVal)
    (hauth : authenticate store apiKey = true)
    (hden : (is_rate_limited limit now (wlookup windows clientKey)).1 = false) :
    pipeline now elapsedMs store limit handler breakers windows mockServices service
        fullPath method clientKey apiKey headers body =
      { payload := (process_request now elapsedMs handler breakers mockServices service
          fullPath method headers body).payload,
        status := (process_request now elapsedMs handler breakers mockServices service
          fullPath method headers body).status,
        breakers := (process_request now elapsedMs handler breakers mockServices service
          fullPath method headers body).breakers,
        windows := aset windows clientKey
          (is_rate_limited limit now (wlookup windows clientKey)).2,
        logs := (process_request now elapsedMs handler breakers mockServices service
          fullPath method headers body).logs,
        invoked := (process_request now elapsedMs handler breakers mockServices service
          fullPath method headers body).invoked } := by
  unfold pipeline
  rw [if_neg (by simp [hauth])]
  dsimp only
  rw [hden]
  rfl

theorem pr_not_found (now elapsedMs : Int) (handler : Headers → JVal → HResult)
    (breakers : List (String × Breaker)) (mockServices : List String)
    (service fullPath method : String) (headers : Headers) (body : JVal)
    (hmem : service ∉ mockServices) :
    process_request now elapsedMs handler breakers mockServices service fullPath method
        headers body =
      { payload := .obj [("message", .str "Service not found."), ("status", .str "error")],
        status := 404, breakers := breakers,
        logs := [⟨fullPath, method, 404, elapsedMs, true⟩], invoked := false } := by
  unfold process_request
  rw [if_neg hmem]

/-! ### Claim theorems -/

/-- C5: while a service's breaker is OPEN with fewer than
`reset_timeout_seconds` elapsed since the recorded failure time, a request
for that service answers 503 with the transformed unavailable payload,
never invokes the handler, and leaves the breaker map exactly as it was (in
particular no `record_failure`); moreover neither `record_success` nor
`record_failure` ever produces HALF-OPEN — the OPEN→HALF-OPEN flip happens
only inside an `is_open` query, and only when more than the reset timeout
has elapsed since the last failure. -/
theorem circuit_open_fast_reject (now elapsedMs : Int) (handler : Headers → JVal → HResult)
    (breakers : List (String × Breaker)) (mockServices : List String)
    (service fullPath method : String) (headers : Headers) (body : JVal)
    (cb : Breaker) (t : Int)
    (hlk : alookup breakers service = some cb) (hst : cb.state = CBState.OPEN)
    (hlt : cb.last_failure_time = some t) (hel : now - t < cb.reset_timeout_seconds)
    (hmem : service ∈ mockServices) :
    (process_request now elapsedMs handler breakers mockServices service fullPath method
        headers body).status = 503 ∧
    (process_request now elapsedMs handler breakers mockServices service fullPath method
        headers body).payload =
      .obj [("message", .str (pyCapitalize service ++ " Service Unavailable")),
            ("status", .str "error")] ∧
    (process_request now elapsedMs handler breakers mockServices service fullPath method
        headers body).invoked = false ∧
    (process_request now elapsedMs handler breakers mockServices service fullPath method
        headers body).breakers = breakers ∧
    (∀ b : Breaker, (record_success b).state ≠ CBState.HALF_OPEN) ∧
    (∀ (b : Breaker) (n : Int), (record_failure n b).state ≠ CBState.HALF_OPEN) ∧
    (∀ (b : Breaker) (n t' : Int) (p : Bool × Breaker), b.state = CBState.OPEN →
      b.last_failure_time = some t' → is_open n b = .ok p →
      p.2.state = CBState.HALF_OPEN → b.reset_timeout_seconds < n - t') := by
  have hio : is_open now cb = .ok (true, cb) :=
    is_open_stay cb now t hst hlt (by omega)
  have hsr := hsr_open_eq now handler breakers mockServices service fullPath method
    headers body cb cb hlk hio
  have hpr := pr_of_hsr_ok now elapsedMs handler breakers mockServices service fullPath
    method headers body _ hmem hsr
  rw [hpr]
  refine ⟨rfl, rfl, rfl, ?_, ?_, ?_, ?_⟩
  · exact aset_of_alookup_eq breakers service cb hlk
  · intro b hhalf
    exact CBState.noConfusion hhalf
  · intro b n
    unfold record_failure
    dsimp only
    split_ifs with h1 h2
    · exact fun hc => CBState.noConfusion hc
    · exact fun hc => CBState.noConfusion hc
    · exact h2
  · intro b n t' p hso hlt' hio' hhalf
    by_contra hle
    rw [is_open_stay b n t' hso hlt' hle] at hio'
    have hp : (true, b) = p := by injection hio'
    rw [← hp] at hhalf
    rw [hso] at hhalf
    exact CBState.noConfusion hhalf

/-- C5 witness: a breaker opened at time 0 with the default 10-second reset
timeout rejects a request for "users" at time 5 with 503, handler untouched
and breaker state unchanged. -/
theorem circuit_open_fast_reject_witness :
    (process_request 5 2 (fun _ _ => HResult.ok (.obj [("status", .str "success")]) 200)
        [("users", ⟨CBState.OPEN, 3, some 0, 3, 10⟩)] ["users"] "users" "/users" "GET"
        [] .null).status = 503 ∧
    (process_request 5 2 (fun _ _ => HResult.ok (.obj [("status", .str "success")]) 200)
        [("users", ⟨CBState.OPEN, 3, some 0, 3, 10⟩)] ["users"] "users" "/users" "GET"
        [] .null).invoked = false ∧
    (process_request 5 2 (fun _ _ => HResult.ok (.obj [("status", .str "success")]) 200)
        [("users", ⟨CBState.OPEN, 3, some 0, 3, 10⟩)] ["users"] "users" "/users" "GET"
        [] .null).breakers = [("users", ⟨CBState.OPEN, 3, some 0, 3, 10⟩)] := by
  have h := circuit_open_fast_reject 5 2
    (fun _ _ => HResult.ok (.obj [("status", .str "success")]) 200)
    [("users", ⟨CBState.OPEN, 3, some 0, 3, 10⟩)] ["users"] "users" "/users" "GET"
    [] .null ⟨CBState.OPEN, 3, some 0, 3, 10⟩ 0 rfl rfl rfl (by decide)
    (by simp)
  exact ⟨h.1, h.2.2.1, h.2.2.2.1⟩

/-- C1: in the modelled pipeline the authentication gate runs first and the
rate limiter second, each short-circuiting: an authentication denial
answers 401 with an error payload, writes exactly one log record (time 0)
and touches neither the breaker map nor the rate windows; an authenticated
but rate-limited call answers 429 with an error payload and exactly one
log record carrying response time 0, leaving the breaker map untouched. -/
theorem pipeline_gates (now elapsedMs : Int) (store : String → Except Unit Bool)
    (limit : Nat) (handler : Headers → JVal → HResult)
    (breakers : List (String × Breaker)) (windows : List (String × List Int))
    (mockServices : List String)
    (service fullPath method clientKey apiKey : String) (headers : Headers) (body : JVal) :
    (authenticate store apiKey = false →
      (pipeline now elapsedMs store limit handler breakers windows mockServices service
          fullPath method clientKey apiKey headers body).status = 401 ∧
      alookup (objFields (pipeline now elapsedMs store limit handler breakers windows
          mockServices service fullPath method clientKey apiKey headers body).payload)
        "status" = some (.str "error") ∧
      acontains (objFields (pipeline now elapsedMs store limit handler breakers windows
          mockServices service fullPath method clientKey apiKey headers body).payload)
        "message" = true ∧
      (pipeline now elapsedMs store limit handler breakers windows mockServices service
          fullPath method clientKey apiKey headers body).logs =
        [⟨fullPath, method, 401, 0, true⟩] ∧
      (pipeline now elapsedMs store limit handler breakers windows mockServices service
          fullPath method clientKey apiKey headers body).breakers = breakers ∧
      (pipeline now elapsedMs store limit handler breakers windows mockServices service
          fullPath method clientKey apiKey headers body).windows = windows ∧
      (pipeline now elapsedMs store limit handler breakers windows mockServices service
          fullPath method clientKey apiKey headers body).invoked = false) ∧
    (authenticate store apiKey = true →
      (is_rate_limited limit now (wlookup windows clientKey)).1 = true →
      (pipeline now elapsedMs store limit handler breakers windows mockServices service
          fullPath method clientKey apiKey headers body).status = 429 ∧
      alookup (objFields (pipeline now elapsedMs store limit handler breakers windows
          mockServices service fullPath method clientKey apiKey headers body).payload)
        "status" = some (.str "error") ∧
      acontains (objFields (pipeline now elapsedMs store limit handler breakers windows
          mockServices service fullPath method clientKey apiKey headers body).payload)
        "message" = true ∧
      (pipeline now elapsedMs store limit handler breakers windows mockServices service
          fullPath method clientKey apiKey headers body).logs =
        [⟨fullPath, method, 429, 0, true⟩] ∧
      (pipeline now elapsedMs store limit handler breakers windows mockServices service
          fullPath method clientKey apiKey headers body).breakers = breakers ∧
      (pipeline now elapsedMs store limit handler breakers windows mockServices service
          fullPath method clientKey apiKey headers body).invoked = false) := by
  constructor
  · intro hauth
    rw [pipeline_auth_deny_eq now elapsedMs store limit handler breakers windows
      mockServices service fullPath method clientKey apiKey headers body hauth]
    exact ⟨rfl, rfl, rfl, rfl, rfl, rfl, rfl⟩
  · intro hauth hden
    rw [pipeline_rate_deny_eq now elapsedMs store limit handler breakers windows
      mockServices service fullPath method clientKey apiKey headers body hauth hden]
    exact ⟨rfl, rfl, rfl, rfl, rfl, rfl⟩

/-- C1 witness: a store that rejects the key yields the 401 outcome with a
single zero-time log record; an accepting store with an exhausted window
(10 fresh timestamps, limit 10) yields the 429 outcome with a single
zero-time log record and breakers untouched. -/
theorem pipeline_gates_witness :
    (pipeline 60 2 (fun _ => .ok false) 10
        (fun _ _ => HResult.ok (.obj [("status", .str "success")]) 200)
        [("users", Breaker.init)] [] ["users"] "users" "/users" "GET" "10.0.0.1" "k"
        [] .null).status = 401 ∧
    (pipeline 60 2 (fun _ => .ok false) 10
        (fun _ _ => HResult.ok (.obj [("status", .str "success")]) 200)
        [("users", Breaker.init)] [] ["users"] "users" "/users" "GET" "10.0.0.1" "k"
        [] .null).logs = [⟨"/users", "GET", 401, 0, true⟩] ∧
    (pipeline 60 2 (fun _ => .ok true) 10
        (fun _ _ => HResult.ok (.obj [("status", .str "success")]) 200)
        [("users", Breaker.init)] [("10.0.0.1", [1, 2, 3, 4, 5, 6, 7, 8, 9, 10])]
        ["users"] "users" "/users" "GET" "10.0.0.1" "k" [] .null).status = 429 ∧
    (pipeline 60 2 (fun _ => .ok true) 10
        (fun _ _ => HResult.ok (.obj [("status", .str "success")]) 200)
        [("users", Breaker.init)] [("10.0.0.1", [1, 2, 3, 4, 5, 6, 7, 8, 9, 10])]
        ["users"] "users" "/users" "GET" "10.0.0.1" "k" [] .null).logs =
      [⟨"/users", "GET", 429, 0, true⟩] ∧
    (pipeline 60 2 (fun _ => .ok true) 10
        (fun _ _ => HResult.ok (.obj [("status", .str "success")]) 200)
        [("users", Breaker.init)] [("10.0.0.1", [1, 2, 3, 4, 5, 6, 7, 8, 9, 10])]
        ["users"] "users" "/users" "GET" "10.0.0.1" "k" [] .null).breakers =
      [("users", Breaker.init)] := by
  have h1 := (pipeline_gates 60 2 (fun _ => .ok false) 10
    (fun _ _ => HResult.ok (.obj [("status", .str "success")]) 200)
    [("users", Breaker.init)] [] ["users"] "users" "/users" "GET" "10.0.0.1" "k"
    [] .null).1 rfl
  have h2 := (pipeline_gates 60 2 (fun _ => .ok true) 10
    (fun _ _ => HResult.ok (.obj [("status", .str "success")]) 200)
    [("users", Breaker.init)] [("10.0.0.1", [1, 2, 3, 4, 5, 6, 7, 8, 9, 10])]
    ["users"] "users" "/users" "GET" "10.0.0.1" "k" [] .null).2 rfl (by decide)
  exact ⟨h1.1, h1.2.2.2.1, h2.1, h2.2.2.2.1, h2.2.2.2.2.1⟩

/-- C2 (amended): every call to `process_request` writes at least one and
at most two log records; it writes exactly two precisely when the request
reaches a registered service whose breaker is OPEN with a recorded failure
time — the circuit-open rejection logs once inside
`handle_service_request` and the `finally` block logs again — and exactly
one in every other case. -/
theorem process_request_log_count (now elapsedMs : Int)
    (handler : Headers → JVal → HResult)
    (breakers : List (String × Breaker)) (mockServices : List String)
    (service fullPath method : String) (headers : Headers) (body : JVal) :
    ((process_request now elapsedMs handler breakers mockServices service fullPath method
        headers body).logs.length = 1 ∨
      (process_request now elapsedMs handler breakers mockServices service fullPath method
        headers body).logs.length = 2) ∧
    ((process_request now elapsedMs handler breakers mockServices service fullPath method
        headers body).logs.length = 2 ↔
      service ∈ mockServices ∧ ∃ cb t, alookup breakers service = some cb ∧
        cb.state = CBState.OPEN ∧ cb.last_failure_time = some t) := by
  by_cases hmem : service ∈ mockServices
  · cases hcb : alookup breakers service with
    | none =>
      have hlen : (process_request now elapsedMs handler breakers mockServices service
          fullPath method headers body).logs.length = 1 := by
        rw [pr_of_hsr_ok now elapsedMs handler breakers mockServices service fullPath
          method headers body _ hmem (hsr_nobreaker_eq now handler breakers mockServices
            service fullPath method headers body hcb)]
        rfl
      rw [hlen]
      refine ⟨Or.inl rfl, ?_, ?_⟩
      · intro h2
        exact absurd h2 (by decide)
      · rintro ⟨-, cb, t, hlk, -, -⟩
        exact Option.noConfusion hlk
    | some cb =>
      cases hstate : cb.state with
      | OPEN =>
        cases hflt : cb.last_failure_time with
        | none =>
          have hlen : (process_request now elapsedMs handler breakers mockServices service
              fullPath method headers body).logs.length = 1 := by
            rw [pr_of_hsr_error now elapsedMs handler breakers mockServices service
              fullPath method headers body hmem (hsr_error_eq now handler breakers
                mockServices service fullPath method headers body cb hcb
                (is_open_crash cb now hstate hflt))]
            rfl
          rw [hlen]
          refine ⟨Or.inl rfl, ?_, ?_⟩
          · intro h2
            exact absurd h2 (by decide)
          · rintro ⟨-, cb', t, hlk, -, hlft⟩
            injection hlk with he
            rw [← he] at hlft
            rw [hflt] at hlft
            exact Option.noConfusion hlft
        | some t =>
          have hlen : (process_request now elapsedMs handler breakers mockServices service
              fullPath method headers body).logs.length = 2 := by
            by_cases htime : cb.reset_timeout_seconds < now - t
            · rw [pr_of_hsr_ok now elapsedMs handler breakers mockServices service
                fullPath method headers body _ hmem (hsr_open_eq now handler breakers
                  mockServices service fullPath method headers body cb _ hcb
                  (is_open_trans cb now t hstate hflt htime))]
              rfl
            · rw [pr_of_hsr_ok now elapsedMs handler breakers mockServices service
                fullPath method headers body _ hmem (hsr_open_eq now handler breakers
                  mockServices service fullPath method headers body cb cb hcb
                  (is_open_stay cb now t hstate hflt htime))]
              rfl
          rw [hlen]
          exact ⟨Or.inr rfl, fun _ => ⟨hmem, cb, t, rfl, hstate, hflt⟩, fun _ => rfl⟩
      | CLOSED =>
        have hns : cb.state ≠ CBState.OPEN := by
          rw [hstate]; exact fun hc => CBState.noConfusion hc
        have hlen : (process_request now elapsedMs handler breakers mockServices service
            fullPath method headers body).logs.length = 1 := by
          match hh : handler (transform_request now headers body).1
              (transform_request now headers body).2 with
          | .ok rd sc =>
            rw [pr_of_hsr_ok now elapsedMs handler breakers mockServices service fullPath
              method headers body _ hmem (hsr_dispatch_ok_eq now handler breakers
                mockServices service fullPath method headers body cb rd sc hcb hns hmem hh)]
            rfl
          | .raise =>
            rw [pr_of_hsr_ok now elapsedMs handler breakers mockServices service fullPath
              method headers body _ hmem (hsr_dispatch_raise_eq now handler breakers
                mockServices service fullPath method headers body cb hcb hns hmem hh)]
            rfl
        rw [hlen]
        refine ⟨Or.inl rfl, ?_, ?_⟩
        · intro h2
          exact absurd h2 (by decide)
        · rintro ⟨-, cb', t, hlk, hst', -⟩
          injection hlk with he
          rw [← he] at hst'
          rw [hstate] at hst'
          exact CBState.noConfusion hst'
      | HALF_OPEN =>
        have hns : cb.state ≠ CBState.OPEN := by
          rw [hstate]; exact fun hc => CBState.noConfusion hc
        have hlen : (process_request now elapsedMs handler breakers mockServices service
            fullPath method headers body).logs.length = 1 := by
          match hh : handler (transform_request now headers body).1
              (transform_request now headers body).2 with
          | .ok rd sc =>
            rw [pr_of_hsr_ok now elapsedMs handler breakers mockServices service fullPath
              method headers body _ hmem (hsr_dispatch_ok_eq now handler breakers
                mockServices service fullPath method headers body cb rd sc hcb hns hmem hh)]
            rfl
          | .raise =>
            rw [pr_of_hsr_ok now elapsedMs handler breakers mockServices service fullPath
              method headers body _ hmem (hsr_dispatch_raise_eq now handler breakers
                mockServices service fullPath method headers body cb hcb hns hmem hh)]
            rfl
        rw [hlen]
        refine ⟨Or.inl rfl, ?_, ?_⟩
        · intro h2
          exact absurd h2 (by decide)
        · rintro ⟨-, cb', t, hlk, hst', -⟩
          injection hlk with he
          rw [← he] at hst'
          rw [hstate] at hst'
          exact CBState.noConfusion hst'
  · have hlen : (process_request now elapsedMs handler breakers mockServices service
        fullPath method headers body).logs.length = 1 := by
      rw [pr_not_found now elapsedMs handler breakers mockServices service fullPath method
        headers body hmem]
      rfl
    rw [hlen]
    refine ⟨Or.inl rfl, ?_, ?_⟩
    · intro h2
      exact absurd h2 (by decide)
    · rintro ⟨hmem', -⟩
      exact absurd hmem' hmem

/-- C2 counterexample: a call for "users" whose breaker is OPEN (opened at
time 0, reset timeout 10, queried at time 5) writes two log records, not
exactly one — the claim fails on the circuit-open path. -/
theorem process_request_log_count_counterexample :
    ¬ ((process_request 5 7 (fun _ _ => HResult.ok (.obj [("status", .str "success")]) 200)
        [("users", ⟨CBState.OPEN, 3, some 0, 3, 10⟩)] ["users"] "users" "/users" "GET"
        [] .null).logs.length = 1) := by
  decide

/-- C10: the `is_open` call that performs the OPEN→HALF-OPEN transition
still answers `true`, so the first request after the reset timeout is
rejected with 503 without dispatch (the breaker stored as HALF-OPEN); only
a subsequent request, finding the breaker HALF-OPEN, gets `false` from
`is_open` and is dispatched to the handler. -/
theorem half_open_lazy_trial (now elapsedMs : Int) (handler : Headers → JVal → HResult)
    (breakers : List (String × Breaker)) (mockServices : List String)
    (service fullPath method : String) (headers : Headers) (body : JVal)
    (cb : Breaker) (t : Int)
    (hlk : alookup breakers service = some cb) (hmem : service ∈ mockServices) :
    (cb.state = CBState.OPEN → cb.last_failure_time = some t →
      cb.reset_timeout_seconds < now - t →
      is_open now cb = .ok (true, { cb with state := .HALF_OPEN }) ∧
      (process_request now elapsedMs handler breakers mockServices service fullPath method
          headers body).status = 503 ∧
      (process_request now elapsedMs handler breakers mockServices service fullPath method
          headers body).invoked = false ∧
      alookup (process_request now elapsedMs handler breakers mockServices service fullPath
          method headers body).breakers service = some { cb with state := .HALF_OPEN }) ∧
    (cb.state = CBState.HALF_OPEN →
      is_open now cb = .ok (false, cb) ∧
      (process_request now elapsedMs handler breakers mockServices service fullPath method
          headers body).invoked = true) := by
  constructor
  · intro hst hlt hel
    have hio := is_open_trans cb now t hst hlt hel
    have hsr := hsr_open_eq now handler breakers mockServices service fullPath method
      headers body cb { cb with state := .HALF_OPEN } hlk hio
    have hpr := pr_of_hsr_ok now elapsedMs handler breakers mockServices service fullPath
      method headers body _ hmem hsr
    rw [hpr]
    exact ⟨hio, rfl, rfl, alookup_aset_self breakers service _⟩
  · intro hst
    have hns : cb.state ≠ CBState.OPEN := by rw [hst]; exact fun hc => CBState.noConfusion hc
    refine ⟨is_open_not_open cb now hns, ?_⟩
    match hh : handler (transform_request now headers body).1
        (transform_request now headers body).2 with
    | .ok rd sc =>
      have hsr := hsr_dispatch_ok_eq now handler breakers mockServices service fullPath
        method headers body cb rd sc hlk hns hmem hh
      rw [pr_of_hsr_ok now elapsedMs handler breakers mockServices service fullPath
        method headers body _ hmem hsr]
    | .raise =>
      have hsr := hsr_dispatch_raise_eq now handler breakers mockServices service fullPath
        method headers body cb hlk hns hmem hh
      rw [pr_of_hsr_ok now elapsedMs handler breakers mockServices service fullPath
        method headers body _ hmem hsr]

/-- C10 witness: at time 11 (one past the 10-second reset timeout of a
breaker that opened at time 0) the request is still rejected without
dispatch and the breaker is stored HALF-OPEN; a request finding the breaker
HALF-OPEN is dispatched. -/
theorem half_open_lazy_trial_witness :
    (process_request 11 2 (fun _ _ => HResult.ok (.obj [("status", .str "success")]) 200)
        [("users", ⟨CBState.OPEN, 3, some 0, 3, 10⟩)] ["users"] "users" "/users" "GET"
        [] .null).invoked = false ∧
    alookup (process_request 11 2
        (fun _ _ => HResult.ok (.obj [("status", .str "success")]) 200)
        [("users", ⟨CBState.OPEN, 3, some 0, 3, 10⟩)] ["users"] "users" "/users" "GET"
        [] .null).breakers "users" = some ⟨CBState.HALF_OPEN, 3, some 0, 3, 10⟩ ∧
    (process_request 12 2 (fun _ _ => HResult.ok (.obj [("status", .str "success")]) 200)
        [("users", ⟨CBState.HALF_OPEN, 3, some 0, 3, 10⟩)] ["users"] "users" "/users" "GET"
        [] .null).invoked = true := by
  have h1 := (half_open_lazy_trial 11 2
    (fun _ _ => HResult.ok (.obj [("status", .str "success")]) 200)
    [("users", ⟨CBState.OPEN, 3, some 0, 3, 10⟩)] ["users"] "users" "/users" "GET"
    [] .null ⟨CBState.OPEN, 3, some 0, 3, 10⟩ 0 rfl (by simp)).1 rfl rfl (by decide)
  have h2 := (half_open_lazy_trial 12 2
    (fun _ _ => HResult.ok (.obj [("status", .str "success")]) 200)
    [("users", ⟨CBState.HALF_OPEN, 3, some 0, 3, 10⟩)] ["users"] "users" "/users" "GET"
    [] .null ⟨CBState.HALF_OPEN, 3, some 0, 3, 10⟩ 0 rfl (by simp)).2 rfl
  exact ⟨h1.2.2.1, h1.2.2.2, h2.2⟩

/-- C6: after a dispatched call the breaker is updated from the handler's
original status code — `record_success` for 200–399, `record_failure` for
at least 500, untouched for 4xx — while the client sees the handler's
status unchanged; a handler exception is caught, counted as a breaker
failure, and answered as a synthesized transformed 500 payload instead of
propagating. -/
theorem breaker_update_policy (now elapsedMs : Int) (handler : Headers → JVal → HResult)
    (breakers : List (String × Breaker)) (mockServices : List String)
    (service fullPath method : String) (headers : Headers) (body : JVal)
    (cb : Breaker)
    (hlk : alookup breakers service = some cb) (hns : cb.state ≠ CBState.OPEN)
    (hmem : service ∈ mockServices) :
    (∀ rd sc, handler (transform_request now headers body).1
        (transform_request now headers body).2 = .ok rd sc →
      (200 ≤ sc → sc < 400 →
        alookup (process_request now elapsedMs handler breakers mockServices service
          fullPath method headers body).breakers service = some (record_success cb)) ∧
      (500 ≤ sc →
        alookup (process_request now elapsedMs handler breakers mockServices service
          fullPath method headers body).breakers service = some (record_failure now cb)) ∧
      (400 ≤ sc → sc < 500 →
        alookup (process_request now elapsedMs handler breakers mockServices service
          fullPath method headers body).breakers service = some cb) ∧
      (process_request now elapsedMs handler breakers mockServices service fullPath method
        headers body).status = sc ∧
      (process_request now elapsedMs handler breakers mockServices service fullPath method
        headers body).invoked = true) ∧
    (handler (transform_request now headers body).1
        (transform_request now headers body).2 = .raise →
      alookup (process_request now elapsedMs handler breakers mockServices service fullPath
        method headers body).breakers service = some (record_failure now cb) ∧
      (process_request now elapsedMs handler breakers mockServices service fullPath method
        headers body).status = 500 ∧
      (process_request now elapsedMs handler breakers mockServices service fullPath method
        headers body).payload =
        .obj [("message", .str ("Gateway could not process request to " ++ service ++ ".")),
              ("status", .str "error")] ∧
      (process_request now elapsedMs handler breakers mockServices service fullPath method
        headers body).invoked = true) := by
  constructor
  · intro rd sc hh
    have hsr := hsr_dispatch_ok_eq now handler breakers mockServices service fullPath
      method headers body cb rd sc hlk hns hmem hh
    have hpr := pr_of_hsr_ok now elapsedMs handler breakers mockServices service fullPath
      method headers body _ hmem hsr
    rw [hpr]
    refine ⟨?_, ?_, ?_, transform_response_status now service rd sc, rfl⟩
    · intro h200 h400
      rw [show (if 200 ≤ sc ∧ sc < 400 then record_success cb
          else if 500 ≤ sc then record_failure now cb else cb) = record_success cb from
        if_pos ⟨h200, h400⟩]
      exact alookup_aset_self _ service _
    · intro h500
      rw [show (if 200 ≤ sc ∧ sc < 400 then record_success cb
          else if 500 ≤ sc then record_failure now cb else cb) = record_failure now cb by
        rw [if_neg (by omega), if_pos h500]]
      exact alookup_aset_self _ service _
    · intro h400 h500
      rw [show (if 200 ≤ sc ∧ sc < 400 then record_success cb
          else if 500 ≤ sc then record_failure now cb else cb) = cb by
        rw [if_neg (by omega), if_neg (by omega)]]
      exact alookup_aset_self _ service _
  · intro hh
    have hsr := hsr_dispatch_raise_eq now handler breakers mockServices service fullPath
      method headers body cb hlk hns hmem hh
    have hpr := pr_of_hsr_ok now elapsedMs handler breakers mockServices service fullPath
      method headers body _ hmem hsr
    rw [hpr]
    exact ⟨alookup_aset_self _ service _, rfl, rfl, rfl⟩

/-- C6 witness: a healthy CLOSED breaker for "users" records a success on a
200 response; on a raising handler the gateway answers a transformed 500
and records a failure. -/
theorem breaker_update_policy_witness :
    alookup (process_request 0 2 (fun _ _ => HResult.ok (.obj [("status", .str "success")]) 200)
        [("users", Breaker.init)] ["users"] "users" "/users" "GET" [] .null).breakers
      "users" = some (record_success Breaker.init) ∧
    alookup (process_request 0 2 (fun _ _ => HResult.raise)
        [("users", Breaker.init)] ["users"] "users" "/users" "GET" [] .null).breakers
      "users" = some (record_failure 0 Breaker.init) ∧
    (process_request 0 2 (fun _ _ => HResult.raise)
        [("users", Breaker.init)] ["users"] "users" "/users" "GET" [] .null).status = 500 := by
  have h1 := ((breaker_update_policy 0 2
    (fun _ _ => HResult.ok (.obj [("status", .str "success")]) 200)
    [("users", Breaker.init)] ["users"] "users" "/users" "GET" [] .null Breaker.init
    rfl (fun hc => CBState.noConfusion hc) (by simp)).1
    (.obj [("status", .str "success")]) 200 rfl).1 (by decide) (by decide)
  have h2 := (breaker_update_policy 0 2 (fun _ _ => HResult.raise)
    [("users", Breaker.init)] ["users"] "users" "/users" "GET" [] .null Breaker.init
    rfl (fun hc => CBState.noConfusion hc) (by simp)).2 rfl
  exact ⟨h1, h2.1, h2.2.1⟩

/-- C3: for every client window and time `now`, the rate-limit check prunes
all stored timestamps older than 60 seconds relative to `now`; with at
least `limit` timestamps remaining it denies and stores exactly the pruned
window (never recording `now`), otherwise it appends `now` and admits; the
first-ever request for a key (empty stored window) always admits. -/
theorem rate_limiter_spec (limit : Nat) (now : Int) (w : List Int) (hpos : 0 < limit) :
    (∀ ts ∈ (is_rate_limited limit now w).2, now - ts ≤ 60) ∧
    ((is_rate_limited limit now w).1 = true ↔ limit ≤ (pruneWindow now w).length) ∧
    ((is_rate_limited limit now w).1 = true →
      (is_rate_limited limit now w).2 = pruneWindow now w) ∧
    ((is_rate_limited limit now w).1 = false →
      (is_rate_limited limit now w).2 = pruneWindow now w ++ [now]) ∧
    (is_rate_limited limit now []).1 = false := by
  have hmem : ∀ ts ∈ pruneWindow now w, now - ts ≤ 60 := by
    intro ts hts
    simpa using (List.mem_filter.mp hts).2
  refine ⟨?_, ?_, ?_, ?_, ?_⟩
  · intro ts hts
    by_cases h : limit ≤ (pruneWindow now w).length
    · rw [show (is_rate_limited limit now w).2 = pruneWindow now w by
        simp [is_rate_limited, h]] at hts
      exact hmem ts hts
    · rw [show (is_rate_limited limit now w).2 = pruneWindow now w ++ [now] by
        simp [is_rate_limited, h]] at hts
      rcases List.mem_append.mp hts with hh | hh
      · exact hmem ts hh
      · simp only [List.mem_singleton] at hh
        subst hh
        omega
  · by_cases h : limit ≤ (pruneWindow now w).length <;> simp [is_rate_limited, h]
  · intro hd
    by_cases h : limit ≤ (pruneWindow now w).length
    · simp [is_rate_limited, h]
    · simp [is_rate_limited, h] at hd
  · intro hd
    by_cases h : limit ≤ (pruneWindow now w).length
    · simp [is_rate_limited, h] at hd
    · simp [is_rate_limited, h]
  · have hlen : (pruneWindow now ([] : List Int)).length = 0 := rfl
    have hne : ¬ limit ≤ (pruneWindow now ([] : List Int)).length := by
      rw [hlen]; omega
    simp [is_rate_limited, hne]

/-- C3 witness: with the default limit 10, the 11th request within 60
seconds (window already holding 10 fresh timestamps) is denied and the 10
stored timestamps survive untouched. -/
theorem rate_limiter_spec_witness :
    (is_rate_limited 10 60 [1, 2, 3, 4, 5, 6, 7, 8, 9, 10]).1 = true ∧
    (is_rate_limited 10 60 [1, 2, 3, 4, 5, 6, 7, 8, 9, 10]).2 =
      [1, 2, 3, 4, 5, 6, 7, 8, 9, 10] := by
  have h := rate_limiter_spec 10 60 [1, 2, 3, 4, 5, 6, 7, 8, 9, 10] (by decide)
  have hd : (is_rate_limited 10 60 [1, 2, 3, 4, 5, 6, 7, 8, 9, 10]).1 = true :=
    h.2.1.mpr (by decide)
  exact ⟨hd, (h.2.2.1 hd).trans (by decide)⟩

/-- C4: `record_success` always yields CLOSED with the count zeroed and the
failure time cleared; from CLOSED, `record_failure` opens the breaker
exactly when the incremented count reaches the threshold, stamping the
failure time; iterating failures from the post-success state opens the
breaker exactly upon the `failureThreshold`-th consecutive failure; from
HALF-OPEN, the first success closes and the first failure reopens,
regardless of the threshold. -/
theorem breaker_transition_table (b : Breaker) (now : Int) (k : Nat) :
    ((record_success b).state = CBState.CLOSED ∧ (record_success b).failure_count = 0 ∧
      (record_success b).last_failure_time = none) ∧
    (b.state = CBState.CLOSED →
      (((record_failure now b).state = CBState.OPEN ↔
          b.failure_threshold ≤ b.failure_count + 1) ∧
        (record_failure now b).last_failure_time = some now)) ∧
    (0 < b.failure_threshold →
      ((((record_failure now)^[k]) (record_success b)).state = CBState.OPEN ↔
        b.failure_threshold ≤ k)) ∧
    (b.state = CBState.HALF_OPEN →
      (record_success b).state = CBState.CLOSED ∧
      (record_failure now b).state = CBState.OPEN) := by
  refine ⟨⟨rfl, rfl, rfl⟩, ?_, ?_, ?_⟩
  · intro hs
    refine ⟨?_, record_failure_lft b now⟩
    constructor
    · intro ho
      by_contra hlt
      rw [record_failure_closed_lt b now hs (by omega)] at ho
      simp [hs] at ho
    · intro hge
      rw [record_failure_closed_ge b now hs hge]
  · intro hpos
    have h := iterate_record_failure_state now k (record_success b) rfl (by
      show 0 < b.failure_threshold
      exact hpos)
    simpa [record_success] using h
  · intro hs
    exact ⟨rfl, by rw [record_failure_half_open b now hs]⟩

/-- C4 witness: with the default threshold 3, iterated failures from a
fresh post-success breaker open the circuit exactly at the third failure:
open after three failures, still not open after two. -/
theorem breaker_transition_table_witness :
    (((record_failure 7)^[3]) (record_success Breaker.init)).state = CBState.OPEN ∧
    ¬ (((record_failure 7)^[2]) (record_success Breaker.init)).state = CBState.OPEN := by
  constructor
  · exact ((breaker_transition_table Breaker.init 7 3).2.2.1 (by decide)).mpr (by decide)
  · intro hopen
    exact absurd (((breaker_transition_table Breaker.init 7 2).2.2.1 (by decide)).mp hopen)
      (by decide)

/-- C9: on dict payloads with status at least 400, `_transform_response` is
idempotent — a second application (at any metadata timestamp) returns the
once-transformed payload unchanged — and in particular the second
application adds no further `message` entry. -/
theorem transform_response_error_idem (now now' : Int) (service : String) (d : JDict)
    (status : Int) (h : 400 ≤ status) :
    transform_response now' service
        (transform_response now service (.obj d) status).1 status =
      transform_response now service (.obj d) status ∧
    countKey "message"
        (objFields (transform_response now' service
          (transform_response now service (.obj d) status).1 status).1) =
      countKey "message" (objFields (transform_response now service (.obj d) status).1) := by
  have hno : ¬ (200 ≤ status ∧ status < 400) := by omega
  have e1 : transform_response now service (.obj d) status =
      (.obj (transform_error service d), status) := by
    simp [transform_response, hno, h]
  have e2 : transform_response now' service (.obj (transform_error service d)) status =
      (.obj (transform_error service (transform_error service d)), status) := by
    simp [transform_response, hno, h]
  constructor
  · rw [e1, e2, transform_error_idem]
  · rw [e1, e2, transform_error_idem]

/-- C9 witness: the already-transformed payload of `{"error": "boom"}` at
status 500 passes through a second transformation unchanged, with exactly
one `message` entry both times. -/
theorem transform_response_error_idem_witness :
    transform_response 1 "users"
        (transform_response 0 "users" (.obj [("error", .str "boom")]) 500).1 500 =
      transform_response 0 "users" (.obj [("error", .str "boom")]) 500 ∧
    countKey "message"
        (objFields (transform_response 1 "users"
          (transform_response 0 "users" (.obj [("error", .str "boom")]) 500).1 500).1) =
      countKey "message"
        (objFields (transform_response 0 "users" (.obj [("error", .str "boom")]) 500).1) :=
  transform_response_error_idem 0 1 "users" [("error", .str "boom")] 500 (by decide)

/-- C7: `_transform_response` never alters the status code; on a 2xx/3xx
dict payload it attaches `gateway_metadata` exactly when the payload has a
`status` or `data` field and passes the payload through unannotated
otherwise; on a dict payload with status at least 400 it guarantees a
`status` field — set to `"error"` exactly when absent, kept otherwise —
guarantees a `message` field, moves an `error` value into `message` when
`message` was absent (dropping the `error` key), and defaults `message` to
a generic text naming the service when neither field existed. -/
theorem transform_response_spec (now : Int) (service : String) (payload : JVal)
    (status : Int) :
    (transform_response now service payload status).2 = status ∧
    (∀ d, payload = .obj d → 200 ≤ status → status < 400 →
      ((acontains d "status" || acontains d "data") = true →
        (transform_response now service payload status).1 =
          .obj (aset d "gateway_metadata" (gatewayMetadata now))) ∧
      ((acontains d "status" || acontains d "data") = false →
        (transform_response now service payload status).1 = payload)) ∧
    (∀ d, payload = .obj d → 400 ≤ status →
      acontains (objFields (transform_response now service payload status).1) "status"
        = true ∧
      (acontains d "status" = false →
        alookup (objFields (transform_response now service payload status).1) "status" =
          some (.str "error")) ∧
      (acontains d "status" = true →
        alookup (objFields (transform_response now service payload status).1) "status" =
          alookup d "status") ∧
      acontains (objFields (transform_response now service payload status).1) "message"
        = true ∧
      (∀ v, acontains d "message" = false → alookup d "error" = some v →
        alookup (objFields (transform_response now service payload status).1) "message" =
          some v ∧
        acontains (objFields (transform_response now service payload status).1) "error" =
          false) ∧
      (acontains d "message" = false → acontains d "error" = false →
        alookup (objFields (transform_response now service payload status).1) "message" =
          some (.str ("An error occurred with " ++ service ++ " service.")))) := by
  refine ⟨transform_response_status now service payload status, ?_, ?_⟩
  · intro d hp h2 h4
    subst hp
    rw [transform_response_success_eq now service d status h2 h4]
    constructor
    · intro hor
      dsimp only
      rw [if_pos ((Bool.or_eq_true _ _).mp hor)]
    · intro hnor
      dsimp only
      rw [if_neg (by
        rintro (hx | hx) <;> rw [hx] at hnor <;> simp at hnor)]
  · intro d hp h4
    subst hp
    rw [transform_response_error_eq now service d status h4]
    have hobj : objFields (JVal.obj (transform_error service d), status).1 =
        transform_error service d := rfl
    rw [hobj]
    refine ⟨transform_error_contains_status service d, ?_, ?_,
      transform_error_contains_message service d, ?_, ?_⟩
    · intro hs
      unfold transform_error
      rw [ensure_message_alookup_ne service _ "status" (by decide),
        rename_error_alookup_status, ensure_status_alookup_status d hs]
    · intro hs
      unfold transform_error
      rw [ensure_message_alookup_ne service _ "status" (by decide),
        rename_error_alookup_status, ensure_status_of_contains d hs]
    · intro v hm he
      have hm1 : acontains (ensure_status d) "message" = false := by
        rw [ensure_status_acontains_ne d "message" (by decide)]
        exact hm
      have he1 : alookup (ensure_status d) "error" = some v := by
        rw [ensure_status_alookup_ne d "error" (by decide)]
        exact he
      have hq : rename_error (ensure_status d) =
          aremove (aset (ensure_status d) "message" v) "error" :=
        rename_error_eq_some (ensure_status d) v hm1 he1
      have hqm : acontains (rename_error (ensure_status d)) "message" = true := by
        rw [hq, acontains_aremove_ne _ "message" "error" (by decide)]
        exact acontains_aset_self _ "message" v
      unfold transform_error
      rw [ensure_message_of_contains service _ hqm]
      constructor
      · rw [hq, alookup_aremove_ne _ "message" "error" (by decide)]
        exact alookup_aset_self _ "message" v
      · rw [hq]
        exact acontains_aremove_self _ "error"
    · intro hm he
      have hm1 : acontains (ensure_status d) "message" = false := by
        rw [ensure_status_acontains_ne d "message" (by decide)]
        exact hm
      have he1 : alookup (ensure_status d) "error" = none := by
        rw [ensure_status_alookup_ne d "error" (by decide)]
        exact acontains_false_alookup d "error" he
      have hq : rename_error (ensure_status d) = ensure_status d :=
        rename_error_eq_none (ensure_status d) hm1 he1
      unfold transform_error
      rw [hq]
      unfold ensure_message
      rw [if_neg (by simp [hm1])]
      exact alookup_aset_self _ "message" _

/-- C7 witness: at status 500, `{"error": "boom"}` keeps status code 500,
gains `message = "boom"` and loses its `error` key; at status 200,
`{"data": []}` gains the gateway metadata. -/
theorem transform_response_spec_witness :
    (transform_response 0 "users" (.obj [("error", .str "boom")]) 500).2 = 500 ∧
    alookup (objFields (transform_response 0 "users"
        (.obj [("error", .str "boom")]) 500).1) "message" = some (.str "boom") ∧
    acontains (objFields (transform_response 0 "users"
        (.obj [("error", .str "boom")]) 500).1) "error" = false ∧
    (transform_response 0 "users" (.obj [("data", .arr [])]) 200).1 =
      .obj (aset [("data", .arr [])] "gateway_metadata" (gatewayMetadata 0)) := by
  have h := transform_response_spec 0 "users" (.obj [("error", .str "boom")]) 500
  have herr := h.2.2 [("error", .str "boom")] rfl (by decide)
  have h5 := herr.2.2.2.2.1 (.str "boom") (by decide) rfl
  have hsucc := (transform_response_spec 0 "users" (.obj [("data", .arr [])]) 200).2.1
    [("data", .arr [])] rfl (by decide) (by decide)
  exact ⟨h.1, h5.1, h5.2, hsucc.1 (by decide)⟩

/-- C8 counterexample: `_transform_response` aliases its payload
(`transformed_response_data = response_data`) instead of copying, so the
caller's dict object is mutated in place: transforming the empty dict at
heap slot 0 with status 500 leaves that object changed — refuting the
claim that both transforms leave the caller's original objects unchanged. -/
theorem transform_mutation_counterexample :
    ¬ ((transform_response_impl 0 [[]] "users" (some 0) 500).1.getD 0 [] =
        ([[]] : List JDict).getD 0 []) := by
  intro hcontra
  have h2 : ((transform_response_impl 0 [[]] "users" (some 0) 500).1.getD 0 []).length = 2 :=
    rfl
  rw [hcontra] at h2
  exact absurd h2 (by decide)

/-- C8 (amended): `_transform_request` operates on copies — after the call
the caller's header dict and body dict hold exactly their original values —
but `_transform_response` aliases its dict payload and mutates it in place:
it returns the very same object reference, whose stored value after the
call is the transformed payload rather than the original. -/
theorem transform_purity_amended (now : Int) (s : ReqHeaps) (headersRef bodyRef : Nat)
    (h : List JDict) (r : Nat) (service : String) (status : Int)
    (hh : headersRef < s.hheap.length) (hb : bodyRef < s.bheap.length)
    (hr : r < h.length) :
    ((transform_request_impl now s headersRef (some bodyRef)).1.hheap.getD headersRef [] =
        s.hheap.getD headersRef [] ∧
      (transform_request_impl now s headersRef (some bodyRef)).1.bheap.getD bodyRef [] =
        s.bheap.getD bodyRef [] ∧
      (transform_request_impl now s headersRef (some bodyRef)).2.1 ≠ headersRef ∧
      (transform_request_impl now s headersRef (some bodyRef)).2.2 ≠ some bodyRef) ∧
    ((transform_response_impl now h service (some r) status).2.1 = some r ∧
      (transform_response_impl now h service (some r) status).1.getD r [] =
        objFields (transform_response now service (.obj (h.getD r [])) status).1) := by
  have hframe := transform_request_impl_frame now s headersRef bodyRef hh hb
  have hresp := transform_response_impl_getD now h service r status hr
  refine ⟨⟨hframe.1, hframe.2, ?_, ?_⟩, hresp⟩
  · show s.hheap.length ≠ headersRef
    omega
  · show some s.bheap.length ≠ some bodyRef
    intro hc
    injection hc with hc'
    omega

/-- C8 witness: with one header dict `{"X-API-KEY": "k"}` and one body dict
`{"a": 1}` on the heap, `_transform_request` leaves both originals intact;
`_transform_response` on the dict `{}` at slot 0 with status 500 returns
the same reference, now holding the transformed error payload. -/
theorem transform_purity_amended_witness :
    (transform_request_impl 7 ⟨[[("X-API-KEY", "k")]], [[("a", JVal.num 1)]]⟩ 0
        (some 0)).1.hheap.getD 0 [] = [("X-API-KEY", "k")] ∧
    (transform_request_impl 7 ⟨[[("X-API-KEY", "k")]], [[("a", JVal.num 1)]]⟩ 0
        (some 0)).1.bheap.getD 0 [] = [("a", JVal.num 1)] ∧
    (transform_response_impl 7 [[]] "users" (some 0) 500).2.1 = some 0 ∧
    (transform_response_impl 7 [[]] "users" (some 0) 500).1.getD 0 [] =
      objFields (transform_response 7 "users" (.obj []) 500).1 := by
  have h := transform_purity_amended 7 ⟨[[("X-API-KEY", "k")]], [[("a", JVal.num 1)]]⟩
    0 0 [[]] 0 "users" 500 (by decide) (by decide) (by decide)
  exact ⟨h.1.1, h.1.2.1, h.2.1, h.2.2⟩

end Gateway
